import Mathlib

/-!
Verification development for the Park Puls map application
(`src/app.py` and `src/testapp.py`).

The two entry points are flat scripts: they load a polygon layer,
filter its columns by a selected theme, render a map, resolve a map
click by a point-in-polygon spatial join (`gpd.sjoin` with
`predicate="within"`), render the matched polygon's attributes in the
sidebar, and persist user feedback into an SQLite table
`park_feedback`.

The embedding below models:
  * the polygon layer as a list of rows (attribute columns plus a
    geometry); geometries are unions of axis-aligned rectangles, a
    concrete decidable region class standing in for shapely polygons
    (the claims depend only on a decidable containment test, never on
    the exact polygon arithmetic);
  * `gpd.sjoin(point_frame, layer, predicate="within")` as the list of
    layer rows whose geometry contains the clicked point, each paired
    with its positional index (the `index_right` column of the result);
  * the SQLite table as a list of feedback rows plus the
    AUTOINCREMENT counter;
  * the streamlit widgets that the claims mention (slider, markdown,
    sidebar messages) at the level of the values they produce.
-/

/-! ### Points, geometries, attribute values -/

/-- A coordinate pair `(x, y)`; the scripts use `(lng, lat)` order when
building the clicked `Point`. Coordinates are integers: the claims
under verification depend only on a decidable point-in-polygon test,
not on coordinate arithmetic. -/
abbrev Pt := Int × Int

/-- An axis-aligned rectangle, the building block of the concrete
region class standing in for shapely polygons. -/
structure Rect where
  xmin : Int
  ymin : Int
  xmax : Int
  ymax : Int
deriving DecidableEq, Repr

/-- Decidable membership of a point in a rectangle. -/
def Rect.containsB (r : Rect) (p : Pt) : Bool :=
  decide (r.xmin ≤ p.1) && decide (p.1 ≤ r.xmax) &&
  decide (r.ymin ≤ p.2) && decide (p.2 ≤ r.ymax)

/-- A geometry is a finite union of rectangles. -/
abbrev Geometry := List Rect

/-- The test `geomContains g p` is the `point.within(g)` test used by
`gpd.sjoin(..., predicate="within")`. -/
def geomContains (g : Geometry) (p : Pt) : Bool :=
  g.any (fun r => r.containsB p)

/-- An attribute cell of the GeoDataFrame: text, integer, or geometry
(SQLite and pandas cells are dynamically typed). -/
inductive Value where
  | vstr (s : String)
  | vint (n : Int)
  | vgeom (g : Geometry)
deriving DecidableEq, Repr

/-- One row of the (filtered) park layer: its non-geometry attribute
columns in column order, and its geometry column. -/
structure ParkRow where
  attrs : List (String × Value)
  geom : Geometry
deriving DecidableEq, Repr

/-! ### The spatial join (`gpd.sjoin`, `predicate="within"`)

`clicked_point` is a one-row frame holding only the clicked point, so
the join result has one row per layer polygon containing the point,
carrying the polygon's positional index as `index_right` and the
polygon's non-geometry attribute columns. -/

/-- Worker for the spatial join: walks the layer keeping the positional
index of each row. -/
def sjoinAux (pt : Pt) (i : Nat) : List ParkRow → List (Nat × ParkRow)
  | [] => []
  | r :: rs =>
      if geomContains r.geom pt then (i, r) :: sjoinAux pt (i + 1) rs
      else sjoinAux pt (i + 1) rs

/-- The join `sjoinWithin pt layer` embeds
`gpd.sjoin(clicked_point, layer_variables_filtered, predicate="within")`
from `src/app.py`: the rows of the filtered layer whose geometry
contains the clicked point, with their indices, in layer order. -/
def sjoinWithin (pt : Pt) (layer : List ParkRow) : List (Nat × ParkRow) :=
  sjoinAux pt 0 layer

/-- The same spatial join as written in `src/testapp.py` (the code is
textually identical; it is embedded separately so that the equivalence
claim compares two definitions). -/
def sjoinAuxT (pt : Pt) (i : Nat) : List ParkRow → List (Nat × ParkRow)
  | [] => []
  | r :: rs =>
      if geomContains r.geom pt then (i, r) :: sjoinAuxT pt (i + 1) rs
      else sjoinAuxT pt (i + 1) rs

/-- The click-resolution join of `src/testapp.py`. -/
def sjoinWithinT (pt : Pt) (layer : List ParkRow) : List (Nat × ParkRow) :=
  sjoinAuxT pt 0 layer

/-- Embeds `clicked_polygon.iloc[0].to_dict()`: the attribute dictionary of the
first join-result row. The result frame carries the left frame's
geometry (the clicked point itself), the join bookkeeping column
`index_right`, and the polygon's attribute columns. -/
def parkDict (pt : Pt) (m : Nat × ParkRow) : List (String × Value) :=
  ("geometry", Value.vgeom [⟨pt.1, pt.2, pt.1, pt.2⟩]) ::
  ("index_right", Value.vint (m.1 : Int)) :: m.2.attrs

/-- The `column_aliases` dictionary shared by both scripts. -/
def column_aliases : List (String × String) :=
  [("NAMN_top5", "Name(s)"), ("TYP_combined", "Typology1"),
   ("typology", "Typology2"), ("BIOTOP_combined", "Biotope"),
   ("amenities", "Amenities")]

/-- Python `column_aliases.get(key, key)`. -/
def aliasOf (k : String) : String :=
  (column_aliases.lookup k).getD k

/-- The sidebar loop
`for key, val in park_info.items(): if key != "geometry": st.sidebar.markdown(...)`:
the `(aliased key, value)` pairs actually rendered. -/
def renderedAttrs (info : List (String × Value)) : List (String × Value) :=
  (info.filter (fun kv => kv.1 ≠ "geometry")).map (fun kv => (aliasOf kv.1, kv.2))

/-! ### Spatial-join lemmas -/

lemma sjoinAux_eq_nil (pt : Pt) :
    ∀ (layer : List ParkRow) (n : Nat),
      (∀ j s, layer.get? j = some s → geomContains s.geom pt = false) →
      sjoinAux pt n layer = [] := by
  intro layer
  induction layer with
  | nil => intro n _; rfl
  | cons a as ih =>
      intro n h
      have ha : geomContains a.geom pt = false := h 0 a rfl
      simp only [sjoinAux, ha, if_false]
      exact ih (n + 1) (fun j s hj => h (j + 1) s hj)

lemma sjoinAux_unique (pt : Pt) :
    ∀ (layer : List ParkRow) (n i : Nat) (r : ParkRow),
      layer.get? i = some r → geomContains r.geom pt = true →
      (∀ j s, layer.get? j = some s → geomContains s.geom pt = true → j = i) →
      sjoinAux pt n layer = [(n + i, r)] := by
  intro layer
  induction layer with
  | nil => intro n i r hi _ _; simp [List.get?] at hi
  | cons a as ih =>
      intro n i r hi hr huniq
      match i with
      | 0 =>
          have har : a = r := by simpa [List.get?] using hi
          subst har
          simp only [sjoinAux, hr, if_true, Nat.add_zero]
          have hrest : sjoinAux pt (n + 1) as = [] := by
            apply sjoinAux_eq_nil
            intro j s hj
            cases hc : geomContains s.geom pt with
            | false => rfl
            | true =>
                have : j + 1 = 0 := huniq (j + 1) s (by simpa [List.get?] using hj) hc
                omega
          simp [hrest]
      | Nat.succ k =>
          have ha : geomContains a.geom pt = false := by
            cases hc : geomContains a.geom pt with
            | false => rfl
            | true =>
                have : (0 : Nat) = k + 1 := huniq 0 a rfl hc
                omega
          have hi' : as.get? k = some r := by simpa [List.get?] using hi
          have huniq' : ∀ j s, as.get? j = some s →
              geomContains s.geom pt = true → j = k := by
            intro j s hj hc
            have : j + 1 = k + 1 := huniq (j + 1) s (by simpa [List.get?] using hj) hc
            omega
          have hrec := ih (n + 1) k r hi' hr huniq'
          have harith : n + 1 + k = n + (k + 1) := by omega
          simp [sjoinAux, ha, hrec, harith]

lemma sjoin_unique (pt : Pt) (layer : List ParkRow) (i : Nat) (r : ParkRow)
    (hi : layer.get? i = some r) (hr : geomContains r.geom pt = true)
    (huniq : ∀ j s, layer.get? j = some s → geomContains s.geom pt = true → j = i) :
    sjoinWithin pt layer = [(i, r)] := by
  have := sjoinAux_unique pt layer 0 i r hi hr huniq
  simpa [sjoinWithin] using this

/-! ### Claim C1 -/

/-- C1: a click whose point lies inside exactly one polygon of the
filtered layer makes the `predicate="within"` spatial join return a
non-empty result whose first row is that polygon (carrying its
attribute columns), and the sidebar renders exactly the first row's
attributes other than `geometry` (aliased), namely `index_right`
followed by the polygon's attribute columns. -/
theorem c1_click_resolution (pt : Pt) (layer : List ParkRow) (i : Nat) (r : ParkRow)
    (hi : layer.get? i = some r) (hr : geomContains r.geom pt = true)
    (huniq : ∀ j s, layer.get? j = some s → geomContains s.geom pt = true → j = i)
    (hg : ∀ kv ∈ r.attrs, kv.1 ≠ "geometry") :
    sjoinWithin pt layer ≠ [] ∧
    (sjoinWithin pt layer).head? = some (i, r) ∧
    (∀ kv ∈ r.attrs, kv ∈ parkDict pt (i, r)) ∧
    renderedAttrs (parkDict pt (i, r)) =
      ("index_right", Value.vint (i : Int)) ::
        r.attrs.map (fun kv => (aliasOf kv.1, kv.2)) := by
  have hj := sjoin_unique pt layer i r hi hr huniq
  refine ⟨by simp [hj], by simp [hj], ?_, ?_⟩
  · intro kv hkv
    simp [parkDict]
    right; right
    exact hkv
  · have hfilter : List.filter (fun kv => !decide (kv.1 = "geometry")) r.attrs = r.attrs := by
      apply List.filter_eq_self.mpr
      intro kv hkv
      simpa using hg kv hkv
    simp [renderedAttrs, parkDict, hfilter, aliasOf, column_aliases, List.lookup]

/-- A one-polygon demonstration layer for the C1 witness. -/
def demoRow : ParkRow :=
  { attrs := [("NAMN_top5", Value.vstr "Djurgarden")], geom := [⟨0, 0, 10, 10⟩] }

/-- Witness for C1 at a concrete click inside the single polygon of a
one-row layer. -/
theorem c1_click_resolution_witness :
    sjoinWithin (1, 1) [demoRow] ≠ [] ∧
    (sjoinWithin (1, 1) [demoRow]).head? = some (0, demoRow) ∧
    (∀ kv ∈ demoRow.attrs, kv ∈ parkDict (1, 1) (0, demoRow)) ∧
    renderedAttrs (parkDict (1, 1) (0, demoRow)) =
      ("index_right", Value.vint (0 : Int)) ::
        demoRow.attrs.map (fun kv => (aliasOf kv.1, kv.2)) := by
  apply c1_click_resolution (1, 1) [demoRow] 0 demoRow rfl (by decide)
  · intro j s hj hc
    match j with
    | 0 => rfl
    | Nat.succ k => simp [List.get?] at hj
  · decide

/-! ### The SQLite persistence layer

`sqlite3.connect("feedback.db")`, `CREATE TABLE IF NOT EXISTS
park_feedback (id INTEGER PRIMARY KEY AUTOINCREMENT, park_name TEXT,
rating INTEGER, comment TEXT, timestamp TEXT)`, and `log_feedback`. -/

/-- A wall-clock instant, the value of `datetime.utcnow()` at insertion
time. -/
structure Timestamp where
  year : Nat
  month : Nat
  day : Nat
  hour : Nat
  minute : Nat
  second : Nat
  microsecond : Nat
deriving DecidableEq, Repr

/-- Zero-pad a number to 2 digits. -/
def pad2 (n : Nat) : String :=
  if n < 10 then "0" ++ toString n else toString n

/-- Zero-pad a number to 4 digits. -/
def pad4 (n : Nat) : String :=
  if n < 10 then "000" ++ toString n
  else if n < 100 then "00" ++ toString n
  else if n < 1000 then "0" ++ toString n
  else toString n

/-- Zero-pad a number to 6 digits. -/
def pad6 (n : Nat) : String :=
  if n < 10 then "00000" ++ toString n
  else if n < 100 then "0000" ++ toString n
  else if n < 1000 then "000" ++ toString n
  else if n < 10000 then "00" ++ toString n
  else if n < 100000 then "0" ++ toString n
  else toString n

/-- Python `datetime.isoformat()`: `YYYY-MM-DDTHH:MM:SS.ffffff` (the scripts
always call it on a fresh `utcnow()`, whose microsecond field is in
practice nonzero, so the microseconds part is always printed). -/
def isoformat (t : Timestamp) : String :=
  pad4 t.year ++ "-" ++ pad2 t.month ++ "-" ++ pad2 t.day ++ "T" ++
  pad2 t.hour ++ ":" ++ pad2 t.minute ++ ":" ++ pad2 t.second ++ "." ++
  pad6 t.microsecond

/-- One row of the `park_feedback` table. SQLite columns are
dynamically typed, so `park_name` holds whatever cell value was passed
(a string in every reachable path). -/
structure FeedbackRow where
  id : Nat
  park_name : Value
  rating : Int
  comment : String
  timestamp : String
deriving DecidableEq, Repr

/-- The state of `feedback.db`: stored rows in insertion order, plus
the AUTOINCREMENT counter for the surrogate `id` column. -/
structure DB where
  rows : List FeedbackRow
  nextId : Nat
deriving DecidableEq, Repr

/-- Embeds `log_feedback(park_name, rating, comment)` from `src/app.py`:
stamps `datetime.utcnow().isoformat()` and executes
`INSERT INTO park_feedback (park_name, rating, comment, timestamp)
VALUES (?, ?, ?, ?)`; the database assigns the auto-increment id.
The insertion instant is passed explicitly. -/
def log_feedback (db : DB) (park_name : Value) (rating : Int)
    (comment : String) (now : Timestamp) : DB :=
  { rows := db.rows ++
      [{ id := db.nextId, park_name := park_name, rating := rating,
         comment := comment, timestamp := isoformat now }],
    nextId := db.nextId + 1 }

/-- The function `log_feedback` as written in `src/testapp.py` (textually identical
code, embedded separately for the equivalence claim). -/
def log_feedbackT (db : DB) (park_name : Value) (rating : Int)
    (comment : String) (now : Timestamp) : DB :=
  { rows := db.rows ++
      [{ id := db.nextId, park_name := park_name, rating := rating,
         comment := comment, timestamp := isoformat now }],
    nextId := db.nextId + 1 }

/-- The startup `CREATE TABLE IF NOT EXISTS park_feedback (...)` statement:
creates an empty table when the database file has none (AUTOINCREMENT
ids start at 1), and is a no-op on an existing table. -/
def createTableIfNotExists (dbfile : Option DB) : DB :=
  match dbfile with
  | none => { rows := [], nextId := 1 }
  | some db => db

/-- Python `dict.get(key, default)` on an attribute dictionary. -/
def dictGet (d : List (String × Value)) (k : String) (dflt : Value) : Value :=
  (d.lookup k).getD dflt

/-! ### Claim C3 -/

/-- C3: `log_feedback` persists the record verbatim: it appends exactly
one row whose `park_name`, `rating` and `comment` equal the arguments,
whose `timestamp` is the ISO-format string of the insertion instant,
and whose `id` is the database's auto-increment counter (which then
advances). -/
theorem c3_log_feedback_verbatim (db : DB) (p : Value) (r : Int)
    (cm : String) (t : Timestamp) :
    (log_feedback db p r cm t).rows.length = db.rows.length + 1 ∧
    (log_feedback db p r cm t).rows.getLast? =
      some { id := db.nextId, park_name := p, rating := r,
             comment := cm, timestamp := isoformat t } ∧
    (log_feedback db p r cm t).nextId = db.nextId + 1 := by
  refine ⟨by simp [log_feedback], ?_, rfl⟩
  simp [log_feedback, List.getLast?_append]

/-! ### Claim C5 -/

/-- C5: the persistence layer is insert-only and accumulating: each
`log_feedback` call grows `park_feedback` by exactly one row and leaves
every pre-existing row in place unchanged, and re-running
`CREATE TABLE IF NOT EXISTS` on an existing table leaves the stored
rows (and the id counter) untouched. -/
theorem c5_insert_only (db : DB) (p : Value) (r : Int) (cm : String)
    (t : Timestamp) :
    (log_feedback db p r cm t).rows.length = db.rows.length + 1 ∧
    (∀ i, i < db.rows.length →
      (log_feedback db p r cm t).rows.get? i = db.rows.get? i) ∧
    (∀ db0 : DB, createTableIfNotExists (some db0) = db0) := by
  refine ⟨by simp [log_feedback], ?_, fun _ => rfl⟩
  intro i hi
  simp [log_feedback, List.getElem?_append_left hi]

/-- A concrete stored feedback row, used by witnesses. -/
def demoFb : FeedbackRow :=
  { id := 1, park_name := Value.vstr "A", rating := 4, comment := "ok",
    timestamp := "t" }

/-- A concrete one-row database state, used by witnesses. -/
def demoDB : DB := { rows := [demoFb], nextId := 2 }

/-- A concrete insertion instant, used by witnesses. -/
def demoNow : Timestamp := ⟨2025, 1, 2, 3, 4, 5, 6⟩

/-- Witness for C5 on a concrete one-row database. -/
theorem c5_insert_only_witness :
    (log_feedback demoDB (Value.vstr "B") 5 "nice" demoNow).rows.length =
      demoDB.rows.length + 1 ∧
    (0 : Nat) < demoDB.rows.length ∧
    (log_feedback demoDB (Value.vstr "B") 5 "nice" demoNow).rows.get? 0 =
      demoDB.rows.get? 0 ∧
    createTableIfNotExists (some demoDB) = demoDB := by
  have h := c5_insert_only demoDB (Value.vstr "B") 5 "nice" demoNow
  exact ⟨h.1, by decide, h.2.1 0 (by decide), h.2.2 demoDB⟩

/-! ### Claim C9 -/

/-- The submit branch of the comment form:
`park_name = park_info.get("NAMN_top5", "Unknown"); log_feedback(park_name, feedback, comment)`. -/
def submitFeedback (park_info : List (String × Value)) (feedback : Int)
    (comment : String) (db : DB) (now : Timestamp) : DB :=
  log_feedback db (dictGet park_info "NAMN_top5" (Value.vstr "Unknown"))
    feedback comment now

/-- C9: when the clicked polygon's attribute dictionary lacks the key
`NAMN_top5`, the feedback row is nonetheless inserted, with `park_name`
equal to the fallback string `Unknown`. -/
theorem c9_unknown_fallback (park_info : List (String × Value))
    (feedback : Int) (cm : String) (db : DB) (now : Timestamp)
    (h : park_info.lookup "NAMN_top5" = none) :
    (submitFeedback park_info feedback cm db now).rows.length =
      db.rows.length + 1 ∧
    (submitFeedback park_info feedback cm db now).rows.getLast? =
      some { id := db.nextId, park_name := Value.vstr "Unknown",
             rating := feedback, comment := cm,
             timestamp := isoformat now } := by
  constructor
  · simp [submitFeedback, log_feedback]
  · simp [submitFeedback, log_feedback, dictGet, h, List.getLast?_append]

/-- An attribute dictionary without the `NAMN_top5` key, for the C9
witness. -/
def demoNoName : List (String × Value) := [("typology", Value.vstr "x")]

/-- Witness for C9 at a concrete attribute dictionary lacking
`NAMN_top5`. -/
theorem c9_unknown_fallback_witness :
    (submitFeedback demoNoName 4 "hi" demoDB demoNow).rows.length =
      demoDB.rows.length + 1 ∧
    (submitFeedback demoNoName 4 "hi" demoDB demoNow).rows.getLast? =
      some { id := demoDB.nextId, park_name := Value.vstr "Unknown",
             rating := 4, comment := "hi",
             timestamp := isoformat demoNow } :=
  c9_unknown_fallback demoNoName 4 "hi" demoDB demoNow (by decide)

/-! ### The rating slider and the per-rerun script

`st.sidebar.slider("Rating ⭐", min_value=1, max_value=5, value=3, step=1)`
is a framework widget: it returns the default value when the user has
not touched it, and otherwise the user's choice, which the UI
constrains to the step grid inside `[min_value, max_value]`. -/

/-- The streamlit slider: the widget never yields a value off the step
grid or outside `[minV, maxV]`; an out-of-protocol input is replaced by
the default. -/
def stSlider (minV maxV dflt step : Int) (input : Option Int) : Int :=
  match input with
  | none => dflt
  | some v =>
      if minV ≤ v && v ≤ maxV && (v - minV) % step == 0 then v else dflt

/-- The observable steps of one top-to-bottom rerun of a script, in
execution order. -/
inductive Event where
  | loadData
  | renderDropdown
  | filterColumns
  | renderMap
  | readClick
  | spatialJoin (nonempty : Bool)
  | renderSidebar
  | writeFeedback
deriving DecidableEq, Repr

/-- The events every rerun performs before any click handling:
`load_layer`, the theme selectbox, `get_filtered_layer`, `st_folium`. -/
def preEvents : List Event :=
  [Event.loadData, Event.renderDropdown, Event.filterColumns, Event.renderMap]

/-- One rerun of `src/app.py` after the map is rendered: reads the
click from `st_folium`'s output, resolves it by the spatial join,
renders the sidebar (park details and comment form, or the no-park
warning), and on a submitted form writes the feedback row. Returns the
event trace and the resulting database state. -/
def runApp (layer : List ParkRow) (click : Option Pt) (sliderInput : Option Int)
    (commentText : String) (submitted : Bool) (db : DB) (now : Timestamp) :
    List Event × DB :=
  match click with
  | none => (preEvents, db)
  | some pt =>
      match (sjoinWithin pt layer).head? with
      | some m =>
          let feedback := stSlider 1 5 3 1 sliderInput
          if submitted then
            (preEvents ++ [Event.readClick, Event.spatialJoin true,
                           Event.renderSidebar, Event.writeFeedback],
             log_feedback db
               (dictGet (parkDict pt m) "NAMN_top5" (Value.vstr "Unknown"))
               feedback commentText now)
          else
            (preEvents ++ [Event.readClick, Event.spatialJoin true,
                           Event.renderSidebar], db)
      | none =>
          (preEvents ++ [Event.readClick, Event.spatialJoin false,
                         Event.renderSidebar], db)

/-- One rerun of `src/testapp.py`: identical click handling except that
an empty join renders nothing in the sidebar (the script has no
else-branch). -/
def runTestapp (layer : List ParkRow) (click : Option Pt) (sliderInput : Option Int)
    (commentText : String) (submitted : Bool) (db : DB) (now : Timestamp) :
    List Event × DB :=
  match click with
  | none => (preEvents, db)
  | some pt =>
      match (sjoinWithinT pt layer).head? with
      | some m =>
          let feedback := stSlider 1 5 3 1 sliderInput
          if submitted then
            (preEvents ++ [Event.readClick, Event.spatialJoin true,
                           Event.renderSidebar, Event.writeFeedback],
             log_feedbackT db
               (dictGet (parkDict pt m) "NAMN_top5" (Value.vstr "Unknown"))
               feedback commentText now)
          else
            (preEvents ++ [Event.readClick, Event.spatialJoin true,
                           Event.renderSidebar], db)
      | none =>
          (preEvents ++ [Event.readClick, Event.spatialJoin false], db)

lemma stSlider_rating_bounds (input : Option Int) :
    1 ≤ stSlider 1 5 3 1 input ∧ stSlider 1 5 3 1 input ≤ 5 := by
  cases input with
  | none => constructor <;> norm_num [stSlider]
  | some v =>
      simp only [stSlider]
      split
      · rename_i h
        simp only [Bool.and_eq_true, decide_eq_true_eq, beq_iff_eq] at h
        omega
      · omega

/-! ### Claim C4 -/

/-- C4: in both entry points the rating passed to `log_feedback` is the
sidebar slider's value (`min_value=1, max_value=5, step=1`), so every
rating a rerun can store is an integer between 1 and 5 inclusive: any
row of the resulting database is either a pre-existing row or has its
rating in that range. -/
theorem c4_rating_range (layer : List ParkRow) (click : Option Pt)
    (sliderInput : Option Int) (commentText : String) (submitted : Bool)
    (db : DB) (now : Timestamp) :
    (∀ row ∈ (runApp layer click sliderInput commentText submitted db now).2.rows,
       row ∈ db.rows ∨ (1 ≤ row.rating ∧ row.rating ≤ 5)) ∧
    (∀ row ∈ (runTestapp layer click sliderInput commentText submitted db now).2.rows,
       row ∈ db.rows ∨ (1 ≤ row.rating ∧ row.rating ≤ 5)) := by
  constructor
  · intro row hrow
    cases click with
    | none => exact Or.inl (by simpa [runApp] using hrow)
    | some pt =>
        cases hj : (sjoinWithin pt layer).head? with
        | none => exact Or.inl (by simpa [runApp, hj] using hrow)
        | some m =>
            cases submitted with
            | false => exact Or.inl (by simpa [runApp, hj] using hrow)
            | true =>
                simp only [runApp, hj, if_true, log_feedback] at hrow
                rcases List.mem_append.mp hrow with hold | hnew
                · exact Or.inl hold
                · right
                  have hrk : row.rating = stSlider 1 5 3 1 sliderInput := by
                    simp only [List.mem_singleton] at hnew
                    rw [hnew]
                  rw [hrk]
                  exact stSlider_rating_bounds sliderInput
  · intro row hrow
    cases click with
    | none => exact Or.inl (by simpa [runTestapp] using hrow)
    | some pt =>
        cases hj : (sjoinWithinT pt layer).head? with
        | none => exact Or.inl (by simpa [runTestapp, hj] using hrow)
        | some m =>
            cases submitted with
            | false => exact Or.inl (by simpa [runTestapp, hj] using hrow)
            | true =>
                simp only [runTestapp, hj, if_true, log_feedbackT] at hrow
                rcases List.mem_append.mp hrow with hold | hnew
                · exact Or.inl hold
                · right
                  have hrk : row.rating = stSlider 1 5 3 1 sliderInput := by
                    simp only [List.mem_singleton] at hnew
                    rw [hnew]
                  rw [hrk]
                  exact stSlider_rating_bounds sliderInput

/-- The row inserted by the concrete app rerun used in witnesses. -/
def demoNewRow : FeedbackRow :=
  { id := 2, park_name := Value.vstr "Djurgarden", rating := 5,
    comment := "great", timestamp := isoformat demoNow }

/-- Witness for C4 at a concrete rerun that inserts a row. -/
theorem c4_rating_range_witness :
    demoNewRow ∈ demoDB.rows ∨ (1 ≤ demoNewRow.rating ∧ demoNewRow.rating ≤ 5) :=
  (c4_rating_range [demoRow] (some (1, 1)) (some 5) "great" true demoDB
    demoNow).1 demoNewRow (by decide)

/-! ### Claim C7 -/

/-- C7: each rerun of either script is strictly ordered as load data →
render dropdown → filter columns → render map → read click →
spatial-join → render sidebar → write feedback row: every trace starts
with the four pre-click events, a feedback row is written only on a
rerun whose click was read and whose spatial join was non-empty (the
trace then ends `readClick, spatialJoin true, renderSidebar,
writeFeedback`), and a rerun that writes no feedback leaves the
database unchanged. -/
theorem c7_data_flow (layer : List ParkRow) (click : Option Pt)
    (sliderInput : Option Int) (commentText : String) (submitted : Bool)
    (db : DB) (now : Timestamp) :
    (runApp layer click sliderInput commentText submitted db now).1.take 4 =
      preEvents ∧
    (∀ pt, click = some pt →
      Event.writeFeedback ∈
        (runApp layer click sliderInput commentText submitted db now).1 →
      sjoinWithin pt layer ≠ [] ∧
      (runApp layer click sliderInput commentText submitted db now).1 =
        preEvents ++ [Event.readClick, Event.spatialJoin true,
                      Event.renderSidebar, Event.writeFeedback]) ∧
    (click = none →
      Event.writeFeedback ∉
        (runApp layer click sliderInput commentText submitted db now).1) ∧
    (Event.writeFeedback ∉
        (runApp layer click sliderInput commentText submitted db now).1 →
      (runApp layer click sliderInput commentText submitted db now).2 = db) ∧
    (runTestapp layer click sliderInput commentText submitted db now).1.take 4 =
      preEvents ∧
    (∀ pt, click = some pt →
      Event.writeFeedback ∈
        (runTestapp layer click sliderInput commentText submitted db now).1 →
      sjoinWithinT pt layer ≠ [] ∧
      (runTestapp layer click sliderInput commentText submitted db now).1 =
        preEvents ++ [Event.readClick, Event.spatialJoin true,
                      Event.renderSidebar, Event.writeFeedback]) ∧
    (click = none →
      Event.writeFeedback ∉
        (runTestapp layer click sliderInput commentText submitted db now).1) ∧
    (Event.writeFeedback ∉
        (runTestapp layer click sliderInput commentText submitted db now).1 →
      (runTestapp layer click sliderInput commentText submitted db now).2 = db) := by
  cases click with
  | none =>
      refine ⟨by simp [runApp, preEvents], ?_, ?_, ?_, by simp [runTestapp, preEvents], ?_, ?_, ?_⟩
      · intro pt hpt; cases hpt
      · intro _; simp [runApp]; decide
      · intro _; simp [runApp]
      · intro pt hpt; cases hpt
      · intro _; simp [runTestapp]; decide
      · intro _; simp [runTestapp]
  | some pt =>
      have happ : ∀ P : Prop,
          ((sjoinWithin pt layer).head? = none → P) →
          (∀ m, (sjoinWithin pt layer).head? = some m → P) → P := by
        intro P h1 h2
        cases hj : (sjoinWithin pt layer).head? with
        | none => exact h1 hj
        | some m => exact h2 m hj
      refine ⟨?_, ?_, ?_, ?_, ?_, ?_, ?_, ?_⟩
      · cases hj : (sjoinWithin pt layer).head? with
        | none => simp [runApp, hj, preEvents]
        | some m =>
            cases submitted with
            | true => simp [runApp, hj, preEvents]
            | false => simp [runApp, hj, preEvents]
      · intro pt' hpt' hmem
        cases hpt'
        cases hj : (sjoinWithin pt layer).head? with
        | none =>
            exfalso
            rw [show (runApp layer (some pt) sliderInput commentText submitted db now).1 =
              preEvents ++ [Event.readClick, Event.spatialJoin false,
                            Event.renderSidebar] by simp [runApp, hj]] at hmem
            revert hmem; decide
        | some m =>
            have hne : sjoinWithin pt layer ≠ [] := by
              intro hnil; rw [hnil] at hj; cases hj
            cases submitted with
            | true => exact ⟨hne, by simp [runApp, hj]⟩
            | false =>
                exfalso
                rw [show (runApp layer (some pt) sliderInput commentText false db now).1 =
                  preEvents ++ [Event.readClick, Event.spatialJoin true,
                                Event.renderSidebar] by simp [runApp, hj]] at hmem
                revert hmem; decide
      · intro hnone; cases hnone
      · intro hnot
        cases hj : (sjoinWithin pt layer).head? with
        | none => simp [runApp, hj]
        | some m =>
            cases submitted with
            | false => simp [runApp, hj]
            | true =>
                exfalso
                apply hnot
                rw [show (runApp layer (some pt) sliderInput commentText true db now).1 =
                  preEvents ++ [Event.readClick, Event.spatialJoin true,
                                Event.renderSidebar, Event.writeFeedback] by simp [runApp, hj]]
                decide
      · cases hj : (sjoinWithinT pt layer).head? with
        | none => simp [runTestapp, hj, preEvents]
        | some m =>
            cases submitted with
            | true => simp [runTestapp, hj, preEvents]
            | false => simp [runTestapp, hj, preEvents]
      · intro pt' hpt' hmem
        cases hpt'
        cases hj : (sjoinWithinT pt layer).head? with
        | none =>
            exfalso
            rw [show (runTestapp layer (some pt) sliderInput commentText submitted db now).1 =
              preEvents ++ [Event.readClick, Event.spatialJoin false]
              by simp [runTestapp, hj]] at hmem
            revert hmem; decide
        | some m =>
            have hne : sjoinWithinT pt layer ≠ [] := by
              intro hnil; rw [hnil] at hj; cases hj
            cases submitted with
            | true => exact ⟨hne, by simp [runTestapp, hj]⟩
            | false =>
                exfalso
                rw [show (runTestapp layer (some pt) sliderInput commentText false db now).1 =
                  preEvents ++ [Event.readClick, Event.spatialJoin true,
                                Event.renderSidebar] by simp [runTestapp, hj]] at hmem
                revert hmem; decide
      · intro hnone; cases hnone
      · intro hnot
        cases hj : (sjoinWithinT pt layer).head? with
        | none => simp [runTestapp, hj]
        | some m =>
            cases submitted with
            | false => simp [runTestapp, hj]
            | true =>
                exfalso
                apply hnot
                rw [show (runTestapp layer (some pt) sliderInput commentText true db now).1 =
                  preEvents ++ [Event.readClick, Event.spatialJoin true,
                                Event.renderSidebar, Event.writeFeedback]
                  by simp [runTestapp, hj]]
                decide

/-- Witness for C7 at a concrete rerun that writes a feedback row. -/
theorem c7_data_flow_witness :
    sjoinWithin (1, 1) [demoRow] ≠ [] ∧
    (runApp [demoRow] (some (1, 1)) (some 5) "great" true demoDB demoNow).1 =
      preEvents ++ [Event.readClick, Event.spatialJoin true,
                    Event.renderSidebar, Event.writeFeedback] :=
  (c7_data_flow [demoRow] (some (1, 1)) (some 5) "great" true demoDB
    demoNow).2.1 (1, 1) rfl (by decide)

/-! ### Claim C8 -/

/-- Python `s * n` on strings: `n` copies of `s` (empty for `n ≤ 0`,
hence the `Int.toNat`). -/
def strRepeat (s : String) (n : Nat) : String :=
  String.join (List.replicate n s)

/-- The rendered rating string from
`st.sidebar.markdown("Your rating: " + "⭐" * feedback + "☆" * (5 - feedback))`:
the stars part. -/
def starString (f : Int) : String :=
  strRepeat "⭐" f.toNat ++ strRepeat "☆" (5 - f).toNat

/-- C8: for every slider value `f` with `1 ≤ f ≤ 5`, the rendered
rating string is exactly `f` filled stars followed by `5 - f` empty
stars, five star characters in total. -/
theorem c8_star_string (f : Int) (h1 : 1 ≤ f) (h5 : f ≤ 5) :
    (starString f).toList =
      List.replicate f.toNat '⭐' ++ List.replicate (5 - f).toNat '☆' ∧
    (starString f).length = 5 ∧
    (starString f).toList.count '⭐' = f.toNat ∧
    (starString f).toList.count '☆' = (5 - f).toNat := by
  interval_cases f <;> exact ⟨by decide, by decide, by decide, by decide⟩

/-- Witness for C8 at slider value 3. -/
theorem c8_star_string_witness :
    (starString 3).toList =
      List.replicate (3 : Int).toNat '⭐' ++
        List.replicate ((5 : Int) - 3).toNat '☆' ∧
    (starString 3).length = 5 ∧
    (starString 3).toList.count '⭐' = (3 : Int).toNat ∧
    (starString 3).toList.count '☆' = ((5 : Int) - 3).toNat :=
  c8_star_string 3 (by decide) (by decide)

/-! ### The sidebar and claim C2 -/

/-- One widget rendered into the sidebar during a rerun. -/
inductive SidebarItem where
  | sbTitle (s : String)
  | sbSubheader (s : String)
  | sbMarkdown (k : String) (v : Value)
  | sbAreaLine (g : Geometry)
  | sbSliderStars (stars : String)
  | sbHeader (s : String)
  | sbWarning (s : String)
deriving DecidableEq, Repr

/-- The sidebar contents of one `src/app.py` rerun:
`st.sidebar.title("Park Details")`, then — when a click resolved to a
park — the park info block, the area line, the rating slider with its
star string and the comment-form header; when the join was empty, the
warning `No park found at this location.`. -/
def appSidebar (click : Option Pt) (layer : List ParkRow)
    (sliderInput : Option Int) : List SidebarItem :=
  SidebarItem.sbTitle "Park Details" ::
  (match click with
   | none => []
   | some pt =>
       match (sjoinWithin pt layer).head? with
       | some m =>
           SidebarItem.sbSubheader "Selected Park Info" ::
           (((parkDict pt m).filter (fun kv => kv.1 ≠ "geometry")).map
              (fun kv => SidebarItem.sbMarkdown (aliasOf kv.1) kv.2)) ++
           [SidebarItem.sbAreaLine [⟨pt.1, pt.2, pt.1, pt.2⟩],
            SidebarItem.sbSliderStars (starString (stSlider 1 5 3 1 sliderInput)),
            SidebarItem.sbHeader "Leave a comment here"]
       | none => [SidebarItem.sbWarning "No park found at this location."])

/-- The sidebar contents of one `src/testapp.py` rerun: the same
structure, except that the comment-form header reads `Leave a comment`
and the script has no else-branch, so an empty join renders nothing
beyond the title. -/
def testappSidebar (click : Option Pt) (layer : List ParkRow)
    (sliderInput : Option Int) : List SidebarItem :=
  SidebarItem.sbTitle "Park Details" ::
  (match click with
   | none => []
   | some pt =>
       match (sjoinWithinT pt layer).head? with
       | some m =>
           SidebarItem.sbSubheader "Selected Park Info" ::
           (((parkDict pt m).filter (fun kv => kv.1 ≠ "geometry")).map
              (fun kv => SidebarItem.sbMarkdown (aliasOf kv.1) kv.2)) ++
           [SidebarItem.sbAreaLine [⟨pt.1, pt.2, pt.1, pt.2⟩],
            SidebarItem.sbSliderStars (starString (stSlider 1 5 3 1 sliderInput)),
            SidebarItem.sbHeader "Leave a comment"]
       | none => [])

/-- C2 as stated is false for `src/testapp.py`: at a click whose
spatial join is empty, `app.py` shows the warning but `testapp.py`
(which has no empty-join branch) shows no such message. -/
theorem c2_counterexample :
    sjoinWithin (100, 100) [demoRow] = [] ∧
    sjoinWithinT (100, 100) [demoRow] = [] ∧
    SidebarItem.sbWarning "No park found at this location." ∈
      appSidebar (some (100, 100)) [demoRow] none ∧
    SidebarItem.sbWarning "No park found at this location." ∉
      testappSidebar (some (100, 100)) [demoRow] none := by
  refine ⟨by decide, by decide, by decide, by decide⟩

/-- C2 amended: in `src/app.py` the warning
`No park found at this location.` is displayed exactly when a click was
read and its spatial join against the filtered layer is empty;
`src/testapp.py` has no empty-join branch and never displays that
message. -/
theorem c2_no_park_message (click : Option Pt) (layer : List ParkRow)
    (sliderInput : Option Int) :
    (SidebarItem.sbWarning "No park found at this location." ∈
        appSidebar click layer sliderInput ↔
      ∃ pt, click = some pt ∧ sjoinWithin pt layer = []) ∧
    SidebarItem.sbWarning "No park found at this location." ∉
      testappSidebar click layer sliderInput := by
  cases click with
  | none =>
      constructor
      · simp [appSidebar]
      · simp [testappSidebar]
  | some pt =>
      constructor
      · cases hj : (sjoinWithin pt layer).head? with
        | none =>
            have hnil : sjoinWithin pt layer = [] := by
              cases hcase : sjoinWithin pt layer with
              | nil => rfl
              | cons x xs => rw [hcase] at hj; cases hj
            simp [appSidebar, hj, hnil]
        | some m =>
            have hne : sjoinWithin pt layer ≠ [] := by
              intro hnil; rw [hnil] at hj; cases hj
            constructor
            · intro hmem
              simp [appSidebar, hj] at hmem
            · rintro ⟨pt', hpt', hnil⟩
              cases hpt'
              exact absurd hnil hne
      · cases hj : (sjoinWithinT pt layer).head? with
        | none => simp [testappSidebar, hj]
        | some m =>
            intro hmem
            simp [testappSidebar, hj] at hmem

/-- Witness for C2 (amended) at a concrete empty-join click: the
warning appears in the app sidebar and never in the testapp sidebar. -/
theorem c2_no_park_message_witness :
    SidebarItem.sbWarning "No park found at this location." ∈
      appSidebar (some (200, 200)) [demoRow] none ∧
    SidebarItem.sbWarning "No park found at this location." ∉
      testappSidebar (some (200, 200)) [demoRow] none :=
  ⟨(c2_no_park_message (some (200, 200)) [demoRow] none).1.mpr
      ⟨(200, 200), rfl, by decide⟩,
   (c2_no_park_message (some (200, 200)) [demoRow] none).2⟩

/-! ### The theme dictionaries and claim C6 -/

/-- The `themes` dictionary of `src/app.py`. -/
def themes_app : List (String × List String) :=
  [("Amenities", ["NAMN_top5", "TYP_combined", "typology", "amenities"]),
   ("Environment", ["NAMN_top5", "typology"]),
   ("Accessibility", ["NAMN_top5"]),
   ("Socioeconomic factors", ["NAMN_top5"])]

/-- The `themes` dictionary of `src/testapp.py` (its `Environment`
entry lists `BIOTOP_combined` instead of `typology`). -/
def themes_testapp : List (String × List String) :=
  [("Amenities", ["NAMN_top5", "TYP_combined", "typology", "amenities"]),
   ("Environment", ["NAMN_top5", "BIOTOP_combined"]),
   ("Accessibility", ["NAMN_top5"]),
   ("Socioeconomic factors", ["NAMN_top5"])]

/-- The column set `themes[selected_layer] + ["geometry"]` that
`get_filtered_layer` selects in `src/app.py`. -/
def filteredCols_app (sel : String) : Option (List String) :=
  (themes_app.lookup sel).map (fun tc => tc ++ ["geometry"])

/-- The same column set as computed by `src/testapp.py`. -/
def filteredCols_testapp (sel : String) : Option (List String) :=
  (themes_testapp.lookup sel).map (fun tc => tc ++ ["geometry"])

lemma sjoinAuxT_eq (pt : Pt) :
    ∀ (layer : List ParkRow) (n : Nat),
      sjoinAuxT pt n layer = sjoinAux pt n layer := by
  intro layer
  induction layer with
  | nil => intro n; rfl
  | cons a as ih => intro n; simp only [sjoinAux, sjoinAuxT, ih]

/-- C6 as stated is false: the two entry points do not compute the same
filtered column set for every theme selection — they disagree on the
`Environment` theme. -/
theorem c6_counterexample :
    filteredCols_app "Environment" =
      some ["NAMN_top5", "typology", "geometry"] ∧
    filteredCols_testapp "Environment" =
      some ["NAMN_top5", "BIOTOP_combined", "geometry"] ∧
    filteredCols_app "Environment" ≠ filteredCols_testapp "Environment" := by
  refine ⟨by decide, by decide, by decide⟩

/-- C6 amended: the two entry points resolve clicks by the same spatial
join and persist identical feedback records for identical inputs, and
they compute the same filtered column set for the `Amenities`,
`Accessibility` and `Socioeconomic factors` themes; they differ on the
`Environment` theme, where `app.py` selects `NAMN_top5, typology` and
`testapp.py` selects `NAMN_top5, BIOTOP_combined`. -/
theorem c6_entry_point_equivalence :
    (∀ (pt : Pt) (layer : List ParkRow),
      sjoinWithin pt layer = sjoinWithinT pt layer) ∧
    (∀ (db : DB) (p : Value) (r : Int) (cm : String) (t : Timestamp),
      log_feedback db p r cm t = log_feedbackT db p r cm t) ∧
    filteredCols_app "Amenities" = filteredCols_testapp "Amenities" ∧
    filteredCols_app "Accessibility" = filteredCols_testapp "Accessibility" ∧
    filteredCols_app "Socioeconomic factors" =
      filteredCols_testapp "Socioeconomic factors" ∧
    filteredCols_app "Environment" ≠ filteredCols_testapp "Environment" := by
  refine ⟨?_, fun _ _ _ _ _ => rfl, by decide, by decide, by decide, by decide⟩
  intro pt layer
  exact (sjoinAuxT_eq pt layer 0).symm

/-! ### Column filtering and claim C10 -/

/-- A column-oriented GeoDataFrame: column name paired with the cell
values of that column. -/
abbrev GeoFrame := List (String × List Value)

/-- Pandas column selection `frame[cols]`, keeping the requested
columns in the requested order; a missing column is a `KeyError`,
modelled as `none`. -/
def selectCols (frame : GeoFrame) : List String → Option GeoFrame
  | [] => some []
  | c :: cs =>
      match frame.lookup c, selectCols frame cs with
      | some colvals, some rest => some ((c, colvals) :: rest)
      | _, _ => none

/-- Embeds `get_filtered_layer(_layer_variables, selected_layer, themes)`:
`cols = themes[selected_layer] + ["geometry"]; return _layer_variables[cols].copy()`
(the function body is identical in both scripts; the `themes` argument
is whichever dictionary the script defines). -/
def get_filtered_layer (frame : GeoFrame) (selected : String)
    (themes : List (String × List String)) : Option GeoFrame :=
  match themes.lookup selected with
  | none => none
  | some tcols => selectCols frame (tcols ++ ["geometry"])

/-- Embeds `popup_cols = [col for col in themes[selected_layer] if col in layer_variables_filtered.columns]`. -/
def popup_cols (tcols : List String) (filtered : GeoFrame) : List String :=
  tcols.filter (fun c => (filtered.map Prod.fst).contains c)

lemma selectCols_spec :
    ∀ (cols : List String) (frame : GeoFrame),
      (∀ c ∈ cols, (frame.lookup c).isSome) →
      ∃ res, selectCols frame cols = some res ∧ res.map Prod.fst = cols := by
  intro cols
  induction cols with
  | nil => intro frame _; exact ⟨[], rfl, rfl⟩
  | cons c cs ih =>
      intro frame h
      obtain ⟨colvals, hcol⟩ :=
        Option.isSome_iff_exists.mp (h c (List.mem_cons_self c cs))
      obtain ⟨res, hres, hmap⟩ :=
        ih frame (fun d hd => h d (List.mem_cons_of_mem c hd))
      refine ⟨(c, colvals) :: res, ?_, by simp [hmap]⟩
      simp [selectCols, hcol, hres]

/-- C10: whenever the selected theme is a key of `themes` and the layer
has all the theme's columns (as the shipped dataset does),
`get_filtered_layer` returns a frame whose column list is exactly
`themes[selected_layer]` followed by `geometry`, and `popup_cols`
equals `themes[selected_layer]` exactly. -/
theorem c10_filtered_columns (frame : GeoFrame) (selected : String)
    (themes : List (String × List String)) (tcols : List String)
    (hsel : themes.lookup selected = some tcols)
    (hcols : ∀ c ∈ tcols ++ ["geometry"], (frame.lookup c).isSome) :
    (get_filtered_layer frame selected themes).isSome ∧
    (get_filtered_layer frame selected themes).map
        (fun res => res.map Prod.fst) = some (tcols ++ ["geometry"]) ∧
    (get_filtered_layer frame selected themes).map
        (fun res => popup_cols tcols res) = some tcols := by
  obtain ⟨res, hres, hmap⟩ := selectCols_spec (tcols ++ ["geometry"]) frame hcols
  have hget : get_filtered_layer frame selected themes = some res := by
    simp [get_filtered_layer, hsel, hres]
  refine ⟨by simp [hget], by simp [hget, hmap], ?_⟩
  rw [hget]
  show some (popup_cols tcols res) = some tcols
  congr 1
  show List.filter (fun c => (List.map Prod.fst res).contains c) tcols = tcols
  apply List.filter_eq_self.mpr
  intro c hc
  rw [hmap]
  have hmem : c ∈ tcols ++ ["geometry"] := List.mem_append_left _ hc
  exact List.elem_eq_true_of_mem hmem

/-- A three-column demonstration frame for the C10 witness. -/
def demoFrame : GeoFrame :=
  [("NAMN_top5", [Value.vstr "A"]),
   ("typology", [Value.vstr "park"]),
   ("geometry", [Value.vgeom [⟨0, 0, 1, 1⟩]])]

/-- Witness for C10 on the `Environment` theme of `src/app.py` over a
concrete frame. -/
theorem c10_filtered_columns_witness :
    (get_filtered_layer demoFrame "Environment" themes_app).isSome ∧
    (get_filtered_layer demoFrame "Environment" themes_app).map
        (fun res => res.map Prod.fst) =
      some (["NAMN_top5", "typology"] ++ ["geometry"]) ∧
    (get_filtered_layer demoFrame "Environment" themes_app).map
        (fun res => popup_cols ["NAMN_top5", "typology"] res) =
      some ["NAMN_top5", "typology"] :=
  c10_filtered_columns demoFrame "Environment" themes_app
    ["NAMN_top5", "typology"] (by decide) (by decide)
